import Mathlib

/-!
# Verification of the iterative refinement control loop

Shallow embedding of the document-refinement core of the repository:

* `src/src/agents/base_agents.py` — `DraftWriterAgent`, `CriticAgent`
  (score extraction from critique text) and `RefinerAgent`
  (`_calculate_improvement`);
* `src/src/agents/multi_model_agents.py` — provider clients
  (`AnthropicClient.generate` and friends);
* `src/src/agents/loop_agent.py` — `LoopState`, the exit conditions and
  `LoopAgent.run`.

Modelling conventions:

* Python float scores are modelled in fixed-point hundredths over `ℤ`
  (`70` stands for `0.70`): every numeric constant the embedded code
  manipulates (`0.01`, `0.05`, `0.07`, `0.1`, `0.02`, `0.7`, `0.9`, `0.95`,
  `0.99`) is an exact multiple of `0.01`, and the one remaining constant,
  the `0.5` of the refiner's length bonus, is handled by doubling both
  sides of its comparison, so the integer model is exact for every
  comparison appearing in the embedded code.  Elapsed wall-clock time is
  modelled in whole seconds (`ℤ`); no behaviour depends on fractional
  seconds.
* The nondeterministic LLM backends are modelled by an `Env` oracle giving,
  per pass of the loop, the text the draft / critic / refiner providers
  return, and the elapsed wall-clock time observed at each timeout check
  (`time.time() - start_time` in the source).
* `re.search` with the five score patterns of
  `CriticAgent._extract_quality_score` is implemented directly over the
  character list: leftmost match, `.*?` not crossing a newline, greedy
  `(\d+)` group.
* Strings that the source builds with interpolated numbers
  (e.g. `f"Maximum iterations ({config.MAX_ITERATIONS}) reached"`) are
  modelled by their fixed text with the interpolation elided; no claim
  inspects the interpolated digits.  Timestamps and the `total_time` field
  are elided for the same reason.
-/

/-! ## String utilities (Python `in`, `str.strip`, `str.startswith`) -/

/-- Python `sub in s` on character lists: `sub` occurs as a contiguous
infix. -/
def listContains (sub : List Char) : List Char → Bool
  | [] => sub.isEmpty
  | c :: cs => sub.isPrefixOf (c :: cs) || listContains sub cs

/-- Python `sub in s` for strings. -/
def containsStr (s sub : String) : Bool :=
  listContains sub.data s.data

/-- Python `line.startswith((p1, ..., pn))`. -/
def startsWithAny (l : String) (ps : List String) : Bool :=
  ps.any fun p => p.isPrefixOf l

/-! ## The score patterns of `CriticAgent._extract_quality_score`
(base_agents.py lines 313-331) -/

/-- Value of a digit group, Python `int(match.group(1))`. -/
def digitsToNat (ds : List Char) : ℕ :=
  ds.foldl (fun a c => a * 10 + (c.toNat - 48)) 0

/-- First digit run after the current position but before the next newline
(the `.*?(\d+)` tail of patterns 1-2; `.` does not cross `\n`). -/
def findNumAfterAux : List Char → Option ℕ
  | [] => none
  | c :: cs =>
    if c = '\n' then none
    else if c.isDigit then some (digitsToNat ((c :: cs).takeWhile Char.isDigit))
    else findNumAfterAux cs

/-- `re.search(lit + ".*?(\\d+)", s)`: leftmost occurrence of `lit` that is
followed by a digit on the same line; captures that (greedy) digit run. -/
def findNumAfter (lit : List Char) : List Char → Option ℕ
  | [] => none
  | c :: cs =>
    if lit.isPrefixOf (c :: cs) then
      match findNumAfterAux (List.drop lit.length (c :: cs)) with
      | some n => some n
      | none => findNumAfter lit cs
    else findNumAfter lit cs

/-- `re.search("(\\d+)" + suffix, s)`: leftmost maximal digit run that is
immediately followed by `suffix` (the suffixes `점`, `/100`, `%` all start
with a non-digit, so the regex cannot backtrack inside the run). -/
def findNumBefore (suffix : List Char) : List Char → Option ℕ
  | [] => none
  | c :: cs =>
    if c.isDigit then
      if suffix.isPrefixOf ((c :: cs).dropWhile Char.isDigit) then
        some (digitsToNat ((c :: cs).takeWhile Char.isDigit))
      else findNumBefore suffix cs
    else findNumBefore suffix cs

/-- The pattern loop of `_extract_quality_score` (lines 313-331): the five
patterns are tried in order, the first match wins, the captured integer is
normalised to `[0,1]` (divide by 100 when `> 1`, then clamp). -/
def patternScore (critique : String) : Option ℤ :=
  let cs := critique.data
  let raw : Option ℕ :=
    (findNumAfter "품질 점수".data cs).orElse fun _ =>
    (findNumAfter "점수".data cs).orElse fun _ =>
    (findNumBefore "점".data cs).orElse fun _ =>
    (findNumBefore "/100".data cs).orElse fun _ =>
    findNumBefore "%".data cs
  raw.map fun n =>
    let score : ℤ := (n : ℤ)
    -- Python: `if score > 1: score = score / 100.0` — in hundredths an
    -- integer `n > 1` already denotes `n` hundredths, while `0`/`1` denote
    -- whole units; then clamp to `[0, 1]` units, i.e. `[0, 100]`.
    let score := if 1 < score then score else 100 * score
    min (max score 0) 100

/-! ## CriticAgent score extraction (base_agents.py lines 309-354) -/

/-- `positive_keywords` of `_extract_quality_score`. -/
def positive_keywords : List String :=
  ["좋", "우수", "훌륭", "적절", "명확", "체계적"]

/-- `negative_keywords` of `_extract_quality_score`. -/
def negative_keywords : List String :=
  ["부족", "미흡", "오류", "문제", "개선 필요", "수정"]

/-- `sum(1 for word in kws if word in critique)`. -/
def countContained (kws : List String) (critique : String) : ℕ :=
  (kws.filter fun w => containsStr critique w).length

/-- The value of the local `extracted_score` after the special cases of
`_extract_quality_score` (lines 322-349): the sentinel phrase overrides any
pattern match; with neither a sentinel nor a pattern match, a delta
estimated from keyword counts is added to the previous score.  (The source
writes this as `if sentinel: ... elif extracted_score is None: ...` after
the pattern loop; the sentinel branch ignores the pattern result, so
checking the sentinel first is equivalent.) -/
def CriticAgent.extracted_score (critique : String) (previous_score : ℤ) : ℤ :=
  let fromPatterns := patternScore critique
  if containsStr critique "No major issues found" then
    max 95 (previous_score + 5)
  else
    match fromPatterns with
    | some s => s
    | none =>
      let positive_count := countContained positive_keywords critique
      let negative_count := countContained negative_keywords critique
      if negative_count < positive_count then previous_score + 10
      else if positive_count < negative_count then previous_score + 5
      else previous_score + 7

/-- `CriticAgent._extract_quality_score` (lines 309-354): the extracted
score is floored at `previous_score + 0.01` and capped at `0.99`. -/
def CriticAgent.extract_quality_score (critique : String) (previous_score : ℤ) : ℤ :=
  min (max (CriticAgent.extracted_score critique previous_score) (previous_score + 1)) 99

/-! ## CriticAgent issue/suggestion extraction (base_agents.py 356-389) -/

/-- Inner loop of `_extract_issues`: a line containing `문제점` switches
capture on; captured non-empty lines not numbered `1.`-`5.` contribute their
text when they start with `-`; a captured line that falls through to the
third branch and mentions `제안` or `긍정` stops the scan. -/
def extract_issues_go : List String → Bool → List String
  | [], _ => []
  | line :: rest, capturing =>
    if containsStr line "문제점" then extract_issues_go rest true
    else if capturing && !line.trim.isEmpty &&
        !startsWithAny line.trim ["1.", "2.", "3.", "4.", "5."] then
      (if "-".isPrefixOf line.trim then [(line.trim.drop 1).trim] else []) ++
        extract_issues_go rest capturing
    else if capturing && (containsStr line "제안" || containsStr line "긍정") then []
    else extract_issues_go rest capturing

/-- `CriticAgent._extract_issues`. -/
def CriticAgent.extract_issues (critique : String) : List String :=
  if containsStr critique "문제점" then
    extract_issues_go (critique.splitOn "\n") false
  else []

/-- Inner loop of `_extract_suggestions` (trigger `제안`, stop on a
fall-through line mentioning `긍정` or `최종`). -/
def extract_suggestions_go : List String → Bool → List String
  | [], _ => []
  | line :: rest, capturing =>
    if containsStr line "제안" then extract_suggestions_go rest true
    else if capturing && !line.trim.isEmpty &&
        !startsWithAny line.trim ["1.", "2.", "3.", "4.", "5."] then
      (if "-".isPrefixOf line.trim then [(line.trim.drop 1).trim] else []) ++
        extract_suggestions_go rest capturing
    else if capturing && (containsStr line "긍정" || containsStr line "최종") then []
    else extract_suggestions_go rest capturing

/-- `CriticAgent._extract_suggestions`. -/
def CriticAgent.extract_suggestions (critique : String) : List String :=
  if containsStr critique "제안" then
    extract_suggestions_go (critique.splitOn "\n") false
  else []

/-! ## RefinerAgent improvement score (base_agents.py lines 445-482) -/

/-- `positive_indicators` of `_calculate_improvement`. -/
def positive_indicators : List String :=
  ["개선", "향상", "좋아", "우수", "긍정", "잘"]

/-- `negative_indicators` of `_calculate_improvement`. -/
def negative_indicators : List String :=
  ["부족", "미흡", "오류", "문제", "수정 필요"]

/-- `RefinerAgent._calculate_improvement` (lines 445-482).  The
`refined_content` argument defaults to `None` in Python but the pipeline
always passes the refined text; Python truthiness of the string is
non-emptiness. -/
def RefinerAgent.calculate_improvement (previous_score : ℤ) (critique : String)
    (refined_content : String) : ℤ :=
  if containsStr critique "No major issues found" then
    max 95 previous_score
  else
    let improvement : ℤ := 10
    let positive_count := countContained positive_indicators critique
    let negative_count := countContained negative_indicators critique
    let improvement :=
      if negative_count < positive_count then
        improvement + 5 * ((positive_count : ℤ) - (negative_count : ℤ))
      else if positive_count < negative_count then
        max 5 (improvement - 2 * ((negative_count : ℤ) - (positive_count : ℤ)))
      else improvement
    -- Python: `len(refined_content) > len(critique) * 0.5`, doubled to stay
    -- in integers.
    let improvement :=
      if refined_content.isEmpty then improvement
      else if (critique.length : ℤ) < 2 * (refined_content.length : ℤ) then
        improvement + 2
      else improvement
    min (max (previous_score + improvement) (previous_score + 1)) 99

/-! ## Data model of the loop (loop_agent.py) -/

/-- `AgentResponse` (base_agents.py lines 15-38).  The `metadata` dict only
carries the agent name / document type / iteration number used for logging
and is elided; `web_search_results` belongs to the out-of-scope web-search
enrichment. -/
structure AgentResponse where
  content : String
  quality_score : ℤ
  issues_found : List String := []
  suggestions : List String := []
deriving DecidableEq

/-- The `iteration_result` dictionary assembled by `LoopAgent._run_iteration`
and annotated by the regression guard in `LoopAgent.run`. -/
structure IterationResult where
  draft : String
  critique : String
  critique_response : AgentResponse
  quality_score : ℤ
  issues : List String
  suggestions : List String
  refined_content : String
  rolled_back : Bool := false
  rollback_reason : String := ""
deriving DecidableEq

/-- One entry of `LoopState.history` (`{"iteration": ..., "result": ...}`;
the timestamp is elided). -/
structure HistoryEntry where
  iteration : ℕ
  result : IterationResult
deriving DecidableEq

/-- `LoopState` (loop_agent.py lines 23-44).  `start_time` is absorbed into
the elapsed-time oracle of `Env`. -/
structure LoopState where
  iteration : ℕ := 0
  current_draft : String := ""
  current_score : ℤ := 0
  history : List HistoryEntry := []
  exit_reason : String := ""
  final_output : String := ""
  best_score : ℤ := 0
  best_content : String := ""
  score_history : List ℤ := []
deriving DecidableEq

/-- The configuration values the loop reads (`config.py`):
`MAX_ITERATIONS` (default 5), `QUALITY_THRESHOLD` (default 0.9),
`TIMEOUT_SECONDS` (default 300). -/
structure Config where
  MAX_ITERATIONS : ℕ
  QUALITY_THRESHOLD : ℤ
  TIMEOUT_SECONDS : ℤ
deriving DecidableEq

/-- The defaults of `config.py`. -/
def defaultConfig : Config :=
  { MAX_ITERATIONS := 5, QUALITY_THRESHOLD := 90, TIMEOUT_SECONDS := 300 }

/-- Oracle for everything outside the loop's control: the text each LLM
call returns (per pass `n` of the loop) and the elapsed wall-clock time
observed at the two timeout checks of pass `n`. -/
structure Env where
  draftText : String
  critiques : ℕ → String
  refineds : ℕ → String
  elapsedTop : ℕ → ℤ
  elapsedAfter : ℕ → ℤ

/-! ## Stage agents (base_agents.py) -/

/-- `DraftWriterAgent.process` (lines 163-238): returns the provider's text
with the fixed baseline score 0.70; the prompt construction is inert. -/
def DraftWriterAgent.process (generated : String) : AgentResponse :=
  { content := generated, quality_score := 70 }

/-- `CriticAgent.process` (lines 255-307): the provider's critique text is
turned into a structured response; `previous_score` is
`input_data.get("previous_score", 0.7)`, always present in the pipeline
input built by `LoopAgent.run`. -/
def CriticAgent.process (critique : String) (previous_score : ℤ) : AgentResponse :=
  { content := critique
    quality_score := CriticAgent.extract_quality_score critique previous_score
    issues_found := CriticAgent.extract_issues critique
    suggestions := CriticAgent.extract_suggestions critique }

/-- `RefinerAgent.process` (lines 398-443): returns the provider's refined
text scored by `_calculate_improvement`. -/
def RefinerAgent.process (generated critique : String) (previous_score : ℤ) : AgentResponse :=
  { content := generated
    quality_score := RefinerAgent.calculate_improvement previous_score critique generated }

/-! ## Provider clients (multi_model_agents.py) -/

/-- `AnthropicClient.generate` (lines 36-58): the backend call either
returns text or raises; the `except` branch reports the error to the UI
(`st.error`), prints a traceback, and returns the empty string. -/
def AnthropicClient.generate (backend : Except String String) : String :=
  match backend with
  | Except.ok t => t
  | Except.error _ => ""

/-- `OpenAIClient.generate` (lines 75-89): same catch-and-return-empty
shape. -/
def OpenAIClient.generate (backend : Except String String) : String :=
  match backend with
  | Except.ok t => t
  | Except.error _ => ""

/-- `GeminiClient.generate` (lines 107-121): same catch-and-return-empty
shape. -/
def GeminiClient.generate (backend : Except String String) : String :=
  match backend with
  | Except.ok t => t
  | Except.error _ => ""

/-! ## LoopState methods (loop_agent.py lines 37-64) -/

/-- `LoopState.add_iteration` (lines 37-44): increments the iteration
counter *again* and appends the record stamped with the incremented
counter. -/
def LoopState.add_iteration (st : LoopState) (result : IterationResult) : LoopState :=
  { st with
      iteration := st.iteration + 1
      history := st.history ++ [{ iteration := st.iteration + 1, result := result }] }

/-- `LoopState.should_exit` (lines 46-64), the top-of-loop guard: max
iterations, then timeout, then quality threshold; sets `exit_reason` when a
condition fires. -/
def LoopState.should_exit (cfg : Config) (elapsed : ℤ) (st : LoopState) : LoopState × Bool :=
  if cfg.MAX_ITERATIONS ≤ st.iteration then
    ({ st with exit_reason := "Maximum iterations reached" }, true)
  else if cfg.TIMEOUT_SECONDS < elapsed then
    ({ st with exit_reason := "Timeout exceeded" }, true)
  else if cfg.QUALITY_THRESHOLD ≤ st.current_score then
    ({ st with exit_reason := "Quality threshold achieved" }, true)
  else (st, false)

/-! ## Exit conditions (loop_agent.py lines 105-141, 297-302) -/

/-- `LoopAgent._check_quality_threshold`. -/
def LoopAgent.check_quality_threshold (cfg : Config) (st : LoopState)
    (critique_response : AgentResponse) : LoopState × Bool :=
  if cfg.QUALITY_THRESHOLD ≤ critique_response.quality_score then
    ({ st with exit_reason := "Quality threshold met" }, true)
  else (st, false)

/-- `LoopAgent._check_no_major_issues`. -/
def LoopAgent.check_no_major_issues (st : LoopState)
    (critique_response : AgentResponse) : LoopState × Bool :=
  if containsStr critique_response.content "No major issues found" then
    ({ st with exit_reason := "No major issues found by critic" }, true)
  else (st, false)

/-- `LoopAgent._check_iteration_limit`. -/
def LoopAgent.check_iteration_limit (cfg : Config) (st : LoopState)
    (_critique_response : AgentResponse) : LoopState × Bool :=
  if cfg.MAX_ITERATIONS ≤ st.iteration then
    ({ st with exit_reason := "Maximum iterations reached" }, true)
  else (st, false)

/-- `LoopAgent._check_timeout`. -/
def LoopAgent.check_timeout (cfg : Config) (elapsed : ℤ) (st : LoopState)
    (_critique_response : AgentResponse) : LoopState × Bool :=
  if cfg.TIMEOUT_SECONDS < elapsed then
    ({ st with exit_reason := "Timeout exceeded" }, true)
  else (st, false)

/-- `LoopAgent._setup_exit_conditions` (lines 105-112): the standing list,
in source order. -/
def LoopAgent.exit_conditions (cfg : Config) (elapsed : ℤ) :
    List (LoopState → AgentResponse → LoopState × Bool) :=
  [LoopAgent.check_quality_threshold cfg,
   LoopAgent.check_no_major_issues,
   LoopAgent.check_iteration_limit cfg,
   LoopAgent.check_timeout cfg elapsed]

/-- The loop of `LoopAgent._should_exit` (lines 297-302): run the checks in
order, stop at the first that fires. -/
def LoopAgent.should_exit_chain :
    List (LoopState → AgentResponse → LoopState × Bool) → LoopState → AgentResponse →
      LoopState × Bool
  | [], st, _ => (st, false)
  | check :: rest, st, r =>
    let (st', fired) := check st r
    if fired then (st', true) else LoopAgent.should_exit_chain rest st' r

/-- `LoopAgent._should_exit`. -/
def LoopAgent.should_exit (cfg : Config) (elapsed : ℤ) (st : LoopState)
    (critique_response : AgentResponse) : LoopState × Bool :=
  LoopAgent.should_exit_chain (LoopAgent.exit_conditions cfg elapsed) st critique_response

/-! ## One pass of the loop (loop_agent.py lines 162-295) -/

/-- `LoopAgent._run_iteration` (lines 239-295) for pass `n`.
`previous_draft` / `previous_score` are the values captured into
`pipeline_input` by `run` *before* this call.  On the first iteration the
draft stage writes the 0.70 baseline into the state; the critic always uses
the captured `previous_score`; the refiner is skipped when the critique
contains the sentinel phrase. -/
def LoopAgent.run_iteration (env : Env) (n : ℕ) (st : LoopState)
    (previous_draft : String) (previous_score : ℤ) : LoopState × IterationResult :=
  let stDraft :=
    if st.iteration = 1 then
      let draft_response := DraftWriterAgent.process env.draftText
      ({ st with
           best_score := draft_response.quality_score
           best_content := draft_response.content
           current_score := draft_response.quality_score
           current_draft := draft_response.content }, draft_response.content)
    else (st, previous_draft)
  let st := stDraft.1
  let draft := stDraft.2
  let critique_response := CriticAgent.process (env.critiques n) previous_score
  if !containsStr critique_response.content "No major issues found" then
    let refine_response :=
      RefinerAgent.process (env.refineds n) critique_response.content
        critique_response.quality_score
    (st,
     { draft := draft
       critique := critique_response.content
       critique_response := critique_response
       quality_score := refine_response.quality_score
       issues := critique_response.issues_found
       suggestions := critique_response.suggestions
       refined_content := refine_response.content })
  else
    (st,
     { draft := draft
       critique := critique_response.content
       critique_response := critique_response
       quality_score := critique_response.quality_score
       issues := critique_response.issues_found
       suggestions := critique_response.suggestions
       refined_content := draft })

/-- The state update of `LoopAgent.run` (lines 179-206): record the score,
apply the regression guard (rollback keeps the previous draft/score and
flags the record; otherwise adopt, updating the best version on a strict
improvement), then `add_iteration`. -/
def LoopAgent.state_update (st : LoopState) (iteration_result : IterationResult) : LoopState :=
  let new_content := iteration_result.refined_content
  let new_score := iteration_result.quality_score
  let st := { st with score_history := st.score_history ++ [new_score] }
  if new_score < st.current_score then
    st.add_iteration
      { iteration_result with
          rolled_back := true
          rollback_reason := "Quality decreased"
          refined_content := st.current_draft
          quality_score := st.current_score }
  else
    let st := { st with current_draft := new_content, current_score := new_score }
    let st :=
      if st.best_score < new_score then
        { st with best_score := new_score, best_content := new_content }
      else st
    st.add_iteration iteration_result

/-- One full pass of the `while` body of `LoopAgent.run` (lines 163-223):
increment the counter, capture `previous_draft`/`previous_score` into the
pipeline input, run the iteration, update the state, then run the four exit
conditions on the critique response (`to_dict` round-trips the response
unchanged).  Returns the new state and whether the loop `break`s. -/
def LoopAgent.run_pass (cfg : Config) (env : Env) (n : ℕ) (st : LoopState) :
    LoopState × Bool :=
  let st := { st with iteration := st.iteration + 1 }
  let previous_draft := st.current_draft
  let previous_score := st.current_score
  let stepRes := LoopAgent.run_iteration env n st previous_draft previous_score
  let st := LoopAgent.state_update stepRes.1 stepRes.2
  LoopAgent.should_exit cfg (env.elapsedAfter n) st stepRes.2.critique_response

/-- The `while not self.state.should_exit()` loop of `LoopAgent.run`,
fuelled.  The counter gains 2 per pass and the iteration-limit exit
condition fires once it reaches `MAX_ITERATIONS`, so `MAX_ITERATIONS + 1`
units of fuel are never exhausted. -/
def LoopAgent.run_loop (cfg : Config) (env : Env) : ℕ → ℕ → LoopState → LoopState
  | 0, _, st => st
  | fuel + 1, n, st =>
    let top := LoopState.should_exit cfg (env.elapsedTop n) st
    if top.2 then top.1
    else
      let pass := LoopAgent.run_pass cfg env n top.1
      if pass.2 then pass.1
      else LoopAgent.run_loop cfg env fuel (n + 1) pass.1

/-- The finalization of `LoopAgent.run` (lines 225-231): use the best
version when it strictly beats the current one, otherwise the current
draft. -/
def LoopAgent.finalize (st : LoopState) : LoopState :=
  if st.current_score < st.best_score then
    { st with final_output := st.best_content, current_score := st.best_score }
  else
    { st with final_output := st.current_draft }

/-- The result dictionary of `LoopAgent._prepare_final_result`
(lines 304-344); timestamps, config echo and `total_time` elided. -/
structure RunResult where
  success : Bool
  final_document : String
  quality_score : ℤ
  iterations : ℕ
  exit_reason : String
  history : List HistoryEntry
  initial_score : ℤ
  final_score : ℤ
  best_score : ℤ
  score_progression : List ℤ
  quality_improved : Bool
  improvement_percentage : ℤ
deriving DecidableEq

/-- `LoopAgent._prepare_final_result`. -/
def LoopAgent.prepare_final_result (st : LoopState) : RunResult :=
  { success := true
    final_document := st.final_output
    quality_score := st.current_score
    iterations := st.iteration
    exit_reason := st.exit_reason
    history := st.history
    initial_score := st.score_history.headD 70
    final_score := st.current_score
    best_score := st.best_score
    score_progression := st.score_history
    quality_improved := decide (st.score_history.headD 70 < st.current_score)
    -- `(score - initial) * 100` in units is exactly the hundredths
    -- difference, expressed in percent.
    improvement_percentage :=
      if st.score_history.isEmpty then 0
      else st.current_score - st.score_history.headD 70 }

/-- The loop state when the `while` loop of `LoopAgent.run` ends, starting
from the fresh `LoopState()`. -/
def LoopAgent.runEndState (cfg : Config) (env : Env) : LoopState :=
  LoopAgent.run_loop cfg env (cfg.MAX_ITERATIONS + 1) 0 {}

/-- `LoopAgent.run` (lines 149-237). -/
def LoopAgent.run (cfg : Config) (env : Env) : RunResult :=
  LoopAgent.prepare_final_result (LoopAgent.finalize (LoopAgent.runEndState cfg env))

/-! ## Concrete runs used as witnesses and counterexamples -/

/-- A strict configuration: `QUALITY_THRESHOLD=1.0` (require a perfect
score), other values as in `config.py`. -/
def cfgStrict : Config :=
  { MAX_ITERATIONS := 5, QUALITY_THRESHOLD := 100, TIMEOUT_SECONDS := 300 }

/-- Oracle: every critique reads `89점` (score 0.89); the refiner returns
`B1` on the first pass and `B2` afterwards. -/
def envC1 : Env :=
  { draftText := "D0"
    critiques := fun _ => "89점"
    refineds := fun n => match n with | 0 => "B1" | _ => "B2"
    elapsedTop := fun _ => 0
    elapsedAfter := fun _ => 0 }

/-- Oracle: the first critique reads `30점` (score 0.30, below the 0.70
draft baseline), the second contains the sentinel phrase; the refiner
returns empty text. -/
def envC10 : Env :=
  { draftText := "D"
    critiques := fun n => match n with | 0 => "30점" | _ => "No major issues found"
    refineds := fun _ => ""
    elapsedTop := fun _ => 0
    elapsedAfter := fun _ => 0 }

/-- Oracle for a run in which every provider call fails: each client's
`generate` swallows the backend error and returns the empty string. -/
def envFail : Env :=
  { draftText := AnthropicClient.generate (Except.error "API error")
    critiques := fun _ => AnthropicClient.generate (Except.error "API error")
    refineds := fun _ => AnthropicClient.generate (Except.error "API error")
    elapsedTop := fun _ => 0
    elapsedAfter := fun _ => 0 }

/-! ## Frame lemmas: the exit checks only touch `exit_reason` -/

lemma check_quality_threshold_frame (cfg : Config) (st : LoopState) (cr : AgentResponse) :
    ∃ r, (LoopAgent.check_quality_threshold cfg st cr).1 = { st with exit_reason := r } := by
  unfold LoopAgent.check_quality_threshold
  split
  · exact ⟨_, rfl⟩
  · exact ⟨st.exit_reason, rfl⟩

lemma check_no_major_issues_frame (st : LoopState) (cr : AgentResponse) :
    ∃ r, (LoopAgent.check_no_major_issues st cr).1 = { st with exit_reason := r } := by
  unfold LoopAgent.check_no_major_issues
  split
  · exact ⟨_, rfl⟩
  · exact ⟨st.exit_reason, rfl⟩

lemma check_iteration_limit_frame (cfg : Config) (st : LoopState) (cr : AgentResponse) :
    ∃ r, (LoopAgent.check_iteration_limit cfg st cr).1 = { st with exit_reason := r } := by
  unfold LoopAgent.check_iteration_limit
  split
  · exact ⟨_, rfl⟩
  · exact ⟨st.exit_reason, rfl⟩

lemma check_timeout_frame (cfg : Config) (e : ℤ) (st : LoopState) (cr : AgentResponse) :
    ∃ r, (LoopAgent.check_timeout cfg e st cr).1 = { st with exit_reason := r } := by
  unfold LoopAgent.check_timeout
  split
  · exact ⟨_, rfl⟩
  · exact ⟨st.exit_reason, rfl⟩

lemma should_exit_chain_frame (cr : AgentResponse) :
    ∀ (checks : List (LoopState → AgentResponse → LoopState × Bool)) (st : LoopState),
      (∀ c ∈ checks, ∀ s : LoopState, ∃ r, (c s cr).1 = { s with exit_reason := r }) →
      ∃ r, (LoopAgent.should_exit_chain checks st cr).1 = { st with exit_reason := r } := by
  intro checks
  induction checks with
  | nil =>
    intro st _
    exact ⟨st.exit_reason, rfl⟩
  | cons c cs ih =>
    intro st h
    obtain ⟨r1, h1⟩ := h c (List.mem_cons_self c cs) st
    rcases hc : c st cr with ⟨st', fired⟩
    rw [hc] at h1
    simp only [LoopAgent.should_exit_chain, hc]
    cases fired with
    | true => exact ⟨r1, h1⟩
    | false =>
      obtain ⟨r2, h2⟩ := ih st' (fun d hd s => h d (List.mem_cons_of_mem c hd) s)
      subst h1
      exact ⟨r2, h2⟩

lemma should_exit_frame (cfg : Config) (e : ℤ) (st : LoopState) (cr : AgentResponse) :
    ∃ r, (LoopAgent.should_exit cfg e st cr).1 = { st with exit_reason := r } := by
  unfold LoopAgent.should_exit
  apply should_exit_chain_frame
  intro c hc s
  simp only [LoopAgent.exit_conditions, List.mem_cons, List.not_mem_nil, or_false] at hc
  rcases hc with rfl | rfl | rfl | rfl
  · exact check_quality_threshold_frame cfg s cr
  · exact check_no_major_issues_frame s cr
  · exact check_iteration_limit_frame cfg s cr
  · exact check_timeout_frame cfg e s cr

lemma should_exit_top_frame (cfg : Config) (e : ℤ) (st : LoopState) :
    ∃ r, (LoopState.should_exit cfg e st).1 = { st with exit_reason := r } := by
  unfold LoopState.should_exit
  split
  · exact ⟨_, rfl⟩
  · split
    · exact ⟨_, rfl⟩
    · split
      · exact ⟨_, rfl⟩
      · exact ⟨st.exit_reason, rfl⟩

lemma should_exit_top_false (cfg : Config) (e : ℤ) (st : LoopState) :
    (LoopState.should_exit cfg e st).2 = false → (LoopState.should_exit cfg e st).1 = st := by
  unfold LoopState.should_exit
  split
  · simp
  · split
    · simp
    · split
      · simp
      · simp

/-! ## Per-step effect lemmas -/

lemma run_iteration_fst (env : Env) (n : ℕ) (st : LoopState) (pd : String) (ps : ℤ) :
    (LoopAgent.run_iteration env n st pd ps).1 =
      if st.iteration = 1 then
        { st with
            best_score := 70
            best_content := env.draftText
            current_score := 70
            current_draft := env.draftText }
      else st := by
  simp only [LoopAgent.run_iteration, DraftWriterAgent.process]
  split <;> split <;> rfl

lemma state_update_fields (st : LoopState) (r : IterationResult) :
    (LoopAgent.state_update st r).iteration = st.iteration + 1 ∧
    (LoopAgent.state_update st r).score_history = st.score_history ++ [r.quality_score] ∧
    (LoopAgent.state_update st r).history.length = st.history.length + 1 ∧
    (LoopAgent.state_update st r).exit_reason = st.exit_reason := by
  simp only [LoopAgent.state_update, LoopState.add_iteration]
  split
  · simp
  · split <;> simp

lemma state_update_best (st : LoopState) (r : IterationResult)
    (h : st.best_score = st.current_score) :
    (LoopAgent.state_update st r).best_score = (LoopAgent.state_update st r).current_score ∧
    st.best_score ≤ (LoopAgent.state_update st r).best_score := by
  simp only [LoopAgent.state_update, LoopState.add_iteration]
  split
  · exact ⟨h, le_refl _⟩
  · rename_i hguard
    rw [not_lt] at hguard
    split
    · rename_i hbest
      dsimp only
      exact ⟨rfl, le_of_lt hbest⟩
    · rename_i hbest
      rw [not_lt] at hbest
      dsimp only
      exact ⟨le_antisymm (le_trans (le_of_eq h) hguard) hbest, le_refl _⟩

/-! ## The loop invariant -/

/-- Invariant of the loop state at pass boundaries: the best version's
score always matches the current one, the (double-incremented) counter is
twice the number of recorded scores, history and score history stay in
step, and a state that has run no pass still carries the initial zero best
score. -/
structure GoodState (st : LoopState) : Prop where
  best_eq : st.best_score = st.current_score
  iter_eq : st.iteration = 2 * st.score_history.length
  hist_len : st.history.length = st.score_history.length
  init_best : st.iteration = 0 → st.best_score = 0

lemma goodState_init : GoodState {} :=
  ⟨rfl, rfl, rfl, fun _ => rfl⟩

lemma goodState_reason {st : LoopState} (r : String) (h : GoodState st) :
    GoodState { st with exit_reason := r } :=
  ⟨h.best_eq, h.iter_eq, h.hist_len, h.init_best⟩

lemma state_update_goodState (st2 : LoopState) (res : IterationResult)
    (hbe : st2.best_score = st2.current_score)
    (hlen : st2.iteration = 2 * st2.score_history.length + 1)
    (hh : st2.history.length = st2.score_history.length) :
    GoodState (LoopAgent.state_update st2 res) := by
  obtain ⟨hiter, hsh, hhist, _⟩ := state_update_fields st2 res
  obtain ⟨hbe2, _⟩ := state_update_best st2 res hbe
  refine ⟨hbe2, ?_, ?_, ?_⟩
  · rw [hiter, hsh]
    simp only [List.length_append, List.length_cons, List.length_nil]
    omega
  · rw [hhist, hsh]
    simp only [List.length_append, List.length_cons, List.length_nil]
    omega
  · intro habs
    rw [hiter] at habs
    omega


lemma run_iteration_fst_flat (env : Env) (n : ℕ) (st : LoopState) (pd : String) (ps : ℤ) :
    (LoopAgent.run_iteration env n { st with iteration := st.iteration + 1 } pd ps).1 =
      if st.iteration = 0 then
        { st with
            iteration := st.iteration + 1
            current_draft := env.draftText
            current_score := 70
            best_score := 70
            best_content := env.draftText }
      else { st with iteration := st.iteration + 1 } := by
  rw [run_iteration_fst]
  by_cases h0 : st.iteration = 0 <;> simp [h0]

lemma goodState_should_exit (cfg : Config) (e : ℤ) (st : LoopState) (cr : AgentResponse)
    (h : GoodState st) : GoodState (LoopAgent.should_exit cfg e st cr).1 := by
  obtain ⟨r, hr⟩ := should_exit_frame cfg e st cr
  rw [hr]
  exact goodState_reason r h

lemma should_exit_best (cfg : Config) (e : ℤ) (st : LoopState) (cr : AgentResponse) :
    (LoopAgent.should_exit cfg e st cr).1.best_score = st.best_score := by
  obtain ⟨r, hr⟩ := should_exit_frame cfg e st cr
  rw [hr]

lemma run_pass_good (cfg : Config) (env : Env) (n : ℕ) (st : LoopState) (h : GoodState st) :
    GoodState (LoopAgent.run_pass cfg env n st).1 ∧
    st.best_score ≤ (LoopAgent.run_pass cfg env n st).1.best_score := by
  have hstep := run_iteration_fst_flat env n st st.current_draft st.current_score
  have hgoal : (LoopAgent.run_pass cfg env n st).1 =
      (LoopAgent.should_exit cfg (env.elapsedAfter n)
        (LoopAgent.state_update
          (LoopAgent.run_iteration env n { st with iteration := st.iteration + 1 }
            st.current_draft st.current_score).1
          (LoopAgent.run_iteration env n { st with iteration := st.iteration + 1 }
            st.current_draft st.current_score).2)
        (LoopAgent.run_iteration env n { st with iteration := st.iteration + 1 }
          st.current_draft st.current_score).2.critique_response).1 := rfl
  rw [hgoal]
  constructor
  · apply goodState_should_exit
    rw [hstep]
    by_cases h0 : st.iteration = 0
    · rw [if_pos h0]
      refine state_update_goodState _ _ ?_ ?_ ?_
      · rfl
      · show st.iteration + 1 = 2 * st.score_history.length + 1
        have := h.iter_eq
        omega
      · exact h.hist_len
    · rw [if_neg h0]
      refine state_update_goodState _ _ ?_ ?_ ?_
      · exact h.best_eq
      · show st.iteration + 1 = 2 * st.score_history.length + 1
        have := h.iter_eq
        omega
      · exact h.hist_len
  · rw [should_exit_best, hstep]
    by_cases h0 : st.iteration = 0
    · rw [if_pos h0]
      refine le_trans (le_of_eq (h.init_best h0)) (le_trans ?_ ((state_update_best _ _ rfl).2))
      show (0 : ℤ) ≤ 70
      norm_num
    · rw [if_neg h0]
      exact (state_update_best { st with iteration := st.iteration + 1 } _ h.best_eq).2

lemma run_loop_zero (cfg : Config) (env : Env) (n : ℕ) (st : LoopState) :
    LoopAgent.run_loop cfg env 0 n st = st := rfl

lemma run_loop_succ (cfg : Config) (env : Env) (fuel n : ℕ) (st : LoopState) :
    LoopAgent.run_loop cfg env (fuel + 1) n st =
      if (LoopState.should_exit cfg (env.elapsedTop n) st).2 then
        (LoopState.should_exit cfg (env.elapsedTop n) st).1
      else if (LoopAgent.run_pass cfg env n
          (LoopState.should_exit cfg (env.elapsedTop n) st).1).2 then
        (LoopAgent.run_pass cfg env n (LoopState.should_exit cfg (env.elapsedTop n) st).1).1
      else
        LoopAgent.run_loop cfg env fuel (n + 1)
          (LoopAgent.run_pass cfg env n (LoopState.should_exit cfg (env.elapsedTop n) st).1).1 :=
  rfl

lemma run_loop_good (cfg : Config) (env : Env) :
    ∀ (fuel n : ℕ) (st : LoopState), GoodState st →
      GoodState (LoopAgent.run_loop cfg env fuel n st) ∧
      st.best_score ≤ (LoopAgent.run_loop cfg env fuel n st).best_score := by
  intro fuel
  induction fuel with
  | zero =>
    intro n st h
    rw [run_loop_zero]
    exact ⟨h, le_refl _⟩
  | succ fuel ih =>
    intro n st h
    rw [run_loop_succ]
    split
    · obtain ⟨r, hr⟩ := should_exit_top_frame cfg (env.elapsedTop n) st
      rw [hr]
      exact ⟨goodState_reason r h, le_refl _⟩
    · rename_i htop
      have h1 : (LoopState.should_exit cfg (env.elapsedTop n) st).1 = st :=
        should_exit_top_false cfg (env.elapsedTop n) st (by simpa using htop)
      rw [h1]
      split
      · exact run_pass_good cfg env n st h
      · have hpg := run_pass_good cfg env n st h
        have hrec := ih (n + 1) (LoopAgent.run_pass cfg env n st).1 hpg.1
        exact ⟨hrec.1, le_trans hpg.2 hrec.2⟩

lemma run_loop_succ_best (cfg : Config) (env : Env) :
    ∀ (fuel n : ℕ) (st : LoopState), GoodState st →
      (LoopAgent.run_loop cfg env fuel n st).best_score ≤
        (LoopAgent.run_loop cfg env (fuel + 1) n st).best_score := by
  intro fuel
  induction fuel with
  | zero =>
    intro n st h
    rw [run_loop_zero, run_loop_succ]
    split
    · obtain ⟨r, hr⟩ := should_exit_top_frame cfg (env.elapsedTop n) st
      rw [hr]
    · rename_i htop
      have h1 : (LoopState.should_exit cfg (env.elapsedTop n) st).1 = st :=
        should_exit_top_false cfg (env.elapsedTop n) st (by simpa using htop)
      rw [h1]
      split
      · exact (run_pass_good cfg env n st h).2
      · rw [run_loop_zero]
        exact (run_pass_good cfg env n st h).2
  | succ fuel ih =>
    intro n st h
    rw [run_loop_succ cfg env fuel n st, run_loop_succ cfg env (fuel + 1) n st]
    split
    · exact le_refl _
    · rename_i htop
      have h1 : (LoopState.should_exit cfg (env.elapsedTop n) st).1 = st :=
        should_exit_top_false cfg (env.elapsedTop n) st (by simpa using htop)
      rw [h1]
      split
      · exact le_refl _
      · exact ih (n + 1) (LoopAgent.run_pass cfg env n st).1
          (run_pass_good cfg env n st h).1

/-! ## Further effect lemmas used by the claim theorems -/

lemma state_update_rollback (st2 : LoopState) (res : IterationResult)
    (h : res.quality_score < st2.current_score) :
    (LoopAgent.state_update st2 res).current_draft = st2.current_draft ∧
    (LoopAgent.state_update st2 res).current_score = st2.current_score ∧
    ((LoopAgent.state_update st2 res).history.map fun e => e.result.rolled_back) =
      (st2.history.map fun e => e.result.rolled_back) ++ [true] ∧
    ((LoopAgent.state_update st2 res).history.map fun e => e.result.rollback_reason) =
      (st2.history.map fun e => e.result.rollback_reason) ++ ["Quality decreased"] := by
  simp only [LoopAgent.state_update, LoopState.add_iteration]
  split
  · simp
  · rename_i hguard
    exact absurd h hguard

lemma state_update_adopt (st2 : LoopState) (res : IterationResult)
    (h : st2.current_score ≤ res.quality_score) :
    (LoopAgent.state_update st2 res).current_draft = res.refined_content ∧
    (LoopAgent.state_update st2 res).current_score = res.quality_score ∧
    ((LoopAgent.state_update st2 res).history.map fun e => e.result.rolled_back) =
      (st2.history.map fun e => e.result.rolled_back) ++ [res.rolled_back] := by
  simp only [LoopAgent.state_update, LoopState.add_iteration]
  split
  · rename_i hguard
    exact absurd hguard (not_lt.mpr h)
  · split <;> simp

lemma state_update_critiques (st2 : LoopState) (res : IterationResult) :
    ((LoopAgent.state_update st2 res).history.map fun e => e.result.critique_response) =
      (st2.history.map fun e => e.result.critique_response) ++ [res.critique_response] := by
  simp only [LoopAgent.state_update, LoopState.add_iteration]
  split
  · simp
  · split <;> simp

lemma should_exit_fields (cfg : Config) (e : ℤ) (st : LoopState) (cr : AgentResponse) :
    (LoopAgent.should_exit cfg e st cr).1.current_draft = st.current_draft ∧
    (LoopAgent.should_exit cfg e st cr).1.current_score = st.current_score ∧
    (LoopAgent.should_exit cfg e st cr).1.history = st.history ∧
    (LoopAgent.should_exit cfg e st cr).1.iteration = st.iteration ∧
    (LoopAgent.should_exit cfg e st cr).1.score_history = st.score_history := by
  obtain ⟨r, hr⟩ := should_exit_frame cfg e st cr
  rw [hr]
  exact ⟨rfl, rfl, rfl, rfl, rfl⟩

lemma run_iteration_critique (env : Env) (n : ℕ) (st : LoopState) (pd : String) (ps : ℤ) :
    (LoopAgent.run_iteration env n st pd ps).2.critique_response =
      CriticAgent.process (env.critiques n) ps := by
  simp only [LoopAgent.run_iteration]
  split <;> split <;> rfl

lemma run_iteration_rolled_back (env : Env) (n : ℕ) (st : LoopState) (pd : String) (ps : ℤ) :
    (LoopAgent.run_iteration env n st pd ps).2.rolled_back = false := by
  simp only [LoopAgent.run_iteration]
  split <;> split <;> rfl

lemma run_iteration_sentinel (env : Env) (n : ℕ) (st : LoopState) (pd : String) (ps : ℤ)
    (h : containsStr (env.critiques n) "No major issues found" = true) :
    (LoopAgent.run_iteration env n st pd ps).2.refined_content =
      (if st.iteration = 1 then env.draftText else pd) ∧
    (LoopAgent.run_iteration env n st pd ps).2.quality_score =
      CriticAgent.extract_quality_score (env.critiques n) ps := by
  simp only [LoopAgent.run_iteration, CriticAgent.process, DraftWriterAgent.process, h,
    Bool.not_true]
  constructor <;>
    · split
      · rename_i hfalse
        exact absurd hfalse (by simp)
      · split <;> rfl

lemma prepare_fields (st : LoopState) :
    (LoopAgent.prepare_final_result st).success = true ∧
    (LoopAgent.prepare_final_result st).final_document = st.final_output ∧
    (LoopAgent.prepare_final_result st).quality_score = st.current_score ∧
    (LoopAgent.prepare_final_result st).iterations = st.iteration ∧
    (LoopAgent.prepare_final_result st).exit_reason = st.exit_reason ∧
    (LoopAgent.prepare_final_result st).best_score = st.best_score ∧
    (LoopAgent.prepare_final_result st).score_progression = st.score_history :=
  ⟨rfl, rfl, rfl, rfl, rfl, rfl, rfl⟩

lemma finalize_keep (st : LoopState) (h : st.best_score = st.current_score) :
    LoopAgent.finalize st = { st with final_output := st.current_draft } := by
  unfold LoopAgent.finalize
  rw [if_neg (show ¬ st.current_score < st.best_score by rw [h]; exact lt_irrefl _)]

lemma finalize_exit_reason (st : LoopState) :
    (LoopAgent.finalize st).exit_reason = st.exit_reason := by
  unfold LoopAgent.finalize
  split <;> rfl

lemma runEndState_good (cfg : Config) (env : Env) : GoodState (LoopAgent.runEndState cfg env) :=
  (run_loop_good cfg env (cfg.MAX_ITERATIONS + 1) 0 {} goodState_init).1

/-- The `iteration_result` of pass `n` started from state `st`: what
`_run_iteration` returns before the regression guard of `run` annotates it
(`st.iteration` is captured after the `iteration += 1` at the top of the
pass, `previous_draft`/`previous_score` before the draft stage runs). -/
def LoopAgent.passResult (env : Env) (n : ℕ) (st : LoopState) : IterationResult :=
  (LoopAgent.run_iteration env n { st with iteration := st.iteration + 1 }
    st.current_draft st.current_score).2

lemma set_final_output_fields (st : LoopState) (x : String) :
    ({ st with final_output := x } : LoopState).current_score = st.current_score ∧
    ({ st with final_output := x } : LoopState).best_score = st.best_score ∧
    ({ st with final_output := x } : LoopState).final_output = x :=
  ⟨rfl, rfl, rfl⟩

/-! ## Claim theorems -/

/-- C1 (counterexample): with `QUALITY_THRESHOLD = 1.0` and critiques that
read `89점` every pass, the refined drafts of passes 1 and 2 both score
0.99; pass 2 adopts `B2` as the current draft (tie, so no rollback) but the
best-version tracker keeps `B1` (the update requires a strict improvement),
and the loop then hits the iteration cap.  The returned `final_document` is
`B2`, which differs from the state's `best_content = B1` even though the
run terminated normally — refuting `final_document == best_content`. -/
theorem spec_C1_counterexample :
    (LoopAgent.run cfgStrict envC1).final_document = "B2" ∧
    (LoopAgent.runEndState cfgStrict envC1).best_content = "B1" ∧
    (LoopAgent.run cfgStrict envC1).quality_score = 99 ∧
    (LoopAgent.runEndState cfgStrict envC1).best_score = 99 ∧
    ("B2" : String) ≠ "B1" :=
  ⟨by decide, by decide, by decide, by decide, by decide⟩

/-- C1 (amended): for every run that terminates, the returned
`quality_score` equals `best_score` (0.99 = 0.99 above), but the returned
document is always the loop's final `current_draft`: `best_score` always
equals `current_score` when the loop ends, so the finalize-by-best branch
(`best_score > current_score`) never fires, and on a score tie the last
adopted draft — not `best_content` — is returned. -/
theorem spec_C1_amended (cfg : Config) (env : Env) :
    (LoopAgent.run cfg env).quality_score = (LoopAgent.run cfg env).best_score ∧
    (LoopAgent.run cfg env).final_document = (LoopAgent.runEndState cfg env).current_draft := by
  have hg := runEndState_good cfg env
  have hrun : LoopAgent.run cfg env =
      LoopAgent.prepare_final_result { LoopAgent.runEndState cfg env with
        final_output := (LoopAgent.runEndState cfg env).current_draft } := by
    unfold LoopAgent.run
    rw [finalize_keep _ hg.best_eq]
  rw [hrun]
  refine ⟨?_, ?_⟩
  · rw [(prepare_fields _).2.2.1, (prepare_fields _).2.2.2.2.2.1,
      (set_final_output_fields _ _).1, (set_final_output_fields _ _).2.1]
    exact hg.best_eq.symm
  · rw [(prepare_fields _).2.1, (set_final_output_fields _ _).2.2]

/-- C2: throughout every run (starting from the fresh `LoopState()`),
after every pass the state satisfies `best_score ≥ current_score`, and
`best_score` never decreases from one pass to the next.  (`run_loop cfg
env k 0 {}` is the loop state after at most `k` passes; the mid-pass
baseline write of iteration 1 sets `best_score = current_score = 0.70`
and so also respects the invariant.) -/
theorem spec_C2_best_invariant (cfg : Config) (env : Env) (k : ℕ) :
    (LoopAgent.run_loop cfg env k 0 {}).current_score ≤
      (LoopAgent.run_loop cfg env k 0 {}).best_score ∧
    (LoopAgent.run_loop cfg env k 0 {}).best_score ≤
      (LoopAgent.run_loop cfg env (k + 1) 0 {}).best_score :=
  ⟨le_of_eq (run_loop_good cfg env k 0 {} goodState_init).1.best_eq.symm,
   run_loop_succ_best cfg env k 0 {} goodState_init⟩

/-- C3 (code bug): the iteration counter is incremented twice per pass —
once at the top of the `while` body of `run` (loop_agent.py line 164) and
again inside `LoopState.add_iteration` (line 39) — while exactly one score
is appended to `score_history` per pass.  Hence `iteration` is always
`2 ×` the length of `score_history`, and a concrete one-pass run reports
`iterations = 2` with a single recorded score, contradicting
`len(score_progression) == iterations`. -/
theorem spec_C3_iteration_double_counted :
    (∀ (cfg : Config) (env : Env) (k : ℕ),
      (LoopAgent.run_loop cfg env k 0 {}).iteration =
        2 * (LoopAgent.run_loop cfg env k 0 {}).score_history.length) ∧
    (LoopAgent.run defaultConfig envC1).iterations = 2 ∧
    (LoopAgent.run defaultConfig envC1).score_progression.length = 1 :=
  ⟨fun cfg env k => (run_loop_good cfg env k 0 {} goodState_init).1.iter_eq,
   by decide, by decide⟩

/-- C7 (counterexample): a failing backend call does not produce a
structured error — `AnthropicClient.generate` swallows the exception and
returns the empty string, and a run whose every provider call fails
completes normally with `success = true` (after the full six
double-counted iterations), never a `success = false` result. -/
theorem spec_C7_counterexample :
    AnthropicClient.generate (Except.error "API error") = "" ∧
    (LoopAgent.run defaultConfig envFail).success = true ∧
    (LoopAgent.run defaultConfig envFail).iterations = 6 :=
  ⟨rfl, rfl, by decide⟩

/-- C7 (amended): backend errors are caught inside each provider client
and swallowed — `generate` returns the empty string (after reporting the
error to the UI), no `ProviderError` type exists, the loop keeps running
on the empty text, and `LoopAgent.run` always reports `success = true`;
an exception that does escape the pipeline is re-raised by `run`, not
converted into a structured failure result. -/
theorem spec_C7_amended :
    (∀ e, AnthropicClient.generate (Except.error e) = "") ∧
    (∀ t, AnthropicClient.generate (Except.ok t) = t) ∧
    (∀ e, OpenAIClient.generate (Except.error e) = "") ∧
    (∀ e, GeminiClient.generate (Except.error e) = "") ∧
    (∀ (cfg : Config) (env : Env), (LoopAgent.run cfg env).success = true) :=
  ⟨fun _ => rfl, fun _ => rfl, fun _ => rfl, fun _ => rfl, fun _ _ => rfl⟩

/-- C4 (counterexample): the Refiner's `_calculate_improvement` does not
obey the `previous_score + 0.01` floor on every input — on a critique
containing the sentinel phrase it returns `max(0.95, previous_score)`
(here 0.96 for `previous_score = 0.96`), which is strictly below
`min(previous_score + 0.01, 0.99) = 0.97`. -/
theorem spec_C4_counterexample :
    RefinerAgent.calculate_improvement 96 "No major issues found" "x" = 96 ∧
    RefinerAgent.calculate_improvement 96 "No major issues found" "x" < min (96 + 1) 99 :=
  ⟨by decide, by decide⟩

/-- C4 (amended): for every critique and `previous_score ∈ [0, 0.99]` the
Critic's score equals `min(max(extracted, previous + 0.01), 0.99)`, is at
least `min(previous + 0.01, 0.99)`, is capped at 0.99 and never drops
below `previous_score`.  The Refiner obeys the same monotonicity and cap,
and obeys the `+0.01` floor on every critique *without* the sentinel
phrase; on sentinel critiques it returns `max(0.95, previous)`, which can
equal `previous` exactly (no `+0.01` floor). -/
theorem spec_C4_amended :
    (∀ (critique : String) (previous_score : ℤ),
      0 ≤ previous_score → previous_score ≤ 99 →
      CriticAgent.extract_quality_score critique previous_score =
        min (max (CriticAgent.extracted_score critique previous_score) (previous_score + 1))
          99 ∧
      min (previous_score + 1) 99 ≤ CriticAgent.extract_quality_score critique previous_score ∧
      CriticAgent.extract_quality_score critique previous_score ≤ 99 ∧
      previous_score ≤ CriticAgent.extract_quality_score critique previous_score) ∧
    (∀ (previous_score : ℤ) (critique refined : String),
      0 ≤ previous_score → previous_score ≤ 99 →
      previous_score ≤ RefinerAgent.calculate_improvement previous_score critique refined ∧
      RefinerAgent.calculate_improvement previous_score critique refined ≤ 99 ∧
      (containsStr critique "No major issues found" = false →
        min (previous_score + 1) 99 ≤
          RefinerAgent.calculate_improvement previous_score critique refined)) := by
  constructor
  · intro critique p h1 h2
    refine ⟨rfl, ?_, ?_, ?_⟩
    · exact min_le_min (le_max_right _ _) (le_refl _)
    · exact min_le_right _ _
    · calc p ≤ min (p + 1) 99 := le_min (by omega) (by omega)
        _ ≤ _ := min_le_min (le_max_right _ _) (le_refl _)
  · intro p critique refined h1 h2
    unfold RefinerAgent.calculate_improvement
    split
    · rename_i hsent
      refine ⟨le_max_right _ _, max_le (by omega) h2, ?_⟩
      intro habs
      rw [habs] at hsent
      simp at hsent
    · refine ⟨?_, min_le_right _ _, fun _ => min_le_min (le_max_right _ _) (le_refl _)⟩
      calc p ≤ min (p + 1) 99 := le_min (by omega) (by omega)
        _ ≤ _ := min_le_min (le_max_right _ _) (le_refl _)

theorem spec_C4_amended_witness :
    ((0 : ℤ) ≤ 50 ∧ (50 : ℤ) ≤ 99) ∧
    (50 : ℤ) ≤ CriticAgent.extract_quality_score "ok" 50 ∧
    CriticAgent.extract_quality_score "ok" 50 ≤ 99 ∧
    (50 : ℤ) ≤ RefinerAgent.calculate_improvement 50 "ok" "refined" :=
  ⟨⟨by omega, by omega⟩,
   (spec_C4_amended.1 "ok" 50 (by omega) (by omega)).2.2.2,
   (spec_C4_amended.1 "ok" 50 (by omega) (by omega)).2.2.1,
   (spec_C4_amended.2 50 "ok" "refined" (by omega) (by omega)).1⟩

/-- C5 (counterexample): with `previous_score = 0.97` and a critique
containing the sentinel phrase, the Critic returns 0.99 (the cap), not
`max(0.95, 0.97 + 0.05) = 1.02` as the claim's formula demands. -/
theorem spec_C5_counterexample :
    CriticAgent.extract_quality_score "No major issues found" 97 = 99 ∧
    max 95 ((97 : ℤ) + 5) = 102 ∧
    (99 : ℤ) ≠ 102 :=
  ⟨by decide, by decide, by decide⟩

/-- C5 (amended): on a critique containing the sentinel phrase the Critic
returns `min(max(0.95, previous + 0.05), 0.99)` — which equals the claimed
`max(0.95, previous + 0.05)` exactly when `previous_score ≤ 0.94` — and
the Refiner stage is skipped in that iteration: the iteration result's
`refined_content` is the unmodified draft (the fresh draft on iteration 1,
otherwise the previous draft) and its score is the Critic's score. -/
theorem spec_C5_amended :
    (∀ (critique : String) (previous_score : ℤ),
      containsStr critique "No major issues found" = true →
      CriticAgent.extract_quality_score critique previous_score =
        min (max 95 (previous_score + 5)) 99 ∧
      (previous_score ≤ 94 →
        CriticAgent.extract_quality_score critique previous_score =
          max 95 (previous_score + 5))) ∧
    (∀ (env : Env) (n : ℕ) (st : LoopState) (pd : String) (ps : ℤ),
      containsStr (env.critiques n) "No major issues found" = true →
      (LoopAgent.run_iteration env n st pd ps).2.refined_content =
        (if st.iteration = 1 then env.draftText else pd) ∧
      (LoopAgent.run_iteration env n st pd ps).2.quality_score =
        CriticAgent.extract_quality_score (env.critiques n) ps) := by
  constructor
  · intro critique p h
    have hval : CriticAgent.extract_quality_score critique p =
        min (max (max 95 (p + 5)) (p + 1)) 99 := by
      simp only [CriticAgent.extract_quality_score, CriticAgent.extracted_score]
      rw [if_pos h]
    have habsorb : max (max 95 (p + 5)) (p + 1) = max 95 (p + 5) :=
      max_eq_left (le_trans (by omega) (le_max_right 95 (p + 5)))
    refine ⟨by rw [hval, habsorb], ?_⟩
    intro hle
    rw [hval, habsorb, min_eq_left (max_le (by omega) (by omega))]
  · intro env n st pd ps h
    exact run_iteration_sentinel env n st pd ps h

theorem spec_C5_amended_witness :
    containsStr "No major issues found" "No major issues found" = true ∧
    CriticAgent.extract_quality_score "No major issues found" 50 = max 95 (50 + 5) ∧
    (LoopAgent.run_iteration envC10 1 { iteration := 3 } "DD" 50).2.refined_content = "DD" := by
  refine ⟨by decide, ?_, ?_⟩
  · exact (spec_C5_amended.1 "No major issues found" 50 (by decide)).2 (by omega)
  · have h := (spec_C5_amended.2 envC10 1 { iteration := 3 } "DD" 50 (by decide)).1
    simpa using h

/-- C9 (counterexample): the keyword fallback has *three* cases, not two —
on a critique with no explicit number, no sentinel and *tied* keyword
counts (here zero of each), the extracted score is `previous + 0.07`, not
the claimed `previous + 0.05`. -/
theorem spec_C9_counterexample :
    patternScore "ok" = none ∧
    containsStr "ok" "No major issues found" = false ∧
    countContained positive_keywords "ok" = 0 ∧
    countContained negative_keywords "ok" = 0 ∧
    CriticAgent.extracted_score "ok" 50 = 50 + 7 ∧
    CriticAgent.extracted_score "ok" 50 ≠ 50 + 5 :=
  ⟨by decide, by decide, by decide, by decide, by decide, by decide⟩

/-- C9 (amended): with no explicit number and no sentinel, the extracted
score before the monotonicity floor is `previous + 0.10` when positive
keywords strictly outnumber negative ones, `previous + 0.05` when negative
strictly outnumber positive, and `previous + 0.07` on a tie; and for
`previous_score = 0.80` with a negative-dominated critique and no explicit
number, the returned score is at least 0.81. -/
theorem spec_C9_amended :
    (∀ (critique : String) (previous_score : ℤ),
      patternScore critique = none →
      containsStr critique "No major issues found" = false →
      CriticAgent.extracted_score critique previous_score =
        previous_score +
          (if countContained negative_keywords critique <
              countContained positive_keywords critique then 10
           else if countContained positive_keywords critique <
              countContained negative_keywords critique then 5
           else 7)) ∧
    (∀ critique : String,
      patternScore critique = none →
      containsStr critique "No major issues found" = false →
      countContained positive_keywords critique < countContained negative_keywords critique →
      81 ≤ CriticAgent.extract_quality_score critique 80) := by
  constructor
  · intro critique p hpat hsent
    simp only [CriticAgent.extracted_score]
    rw [hpat, if_neg (show ¬ containsStr critique "No major issues found" = true by
      simp [hsent])]
    show (if countContained negative_keywords critique <
          countContained positive_keywords critique then p + 10
        else if countContained positive_keywords critique <
          countContained negative_keywords critique then p + 5
        else p + 7) =
      p + (if countContained negative_keywords critique <
          countContained positive_keywords critique then 10
        else if countContained positive_keywords critique <
          countContained negative_keywords critique then 5
        else 7)
    split
    · rfl
    · split <;> rfl
  · intro critique hpat hsent hneg
    unfold CriticAgent.extract_quality_score
    exact le_min (le_trans (by omega) (le_max_right _ _)) (by omega)

theorem spec_C9_amended_witness :
    patternScore "오류" = none ∧
    containsStr "오류" "No major issues found" = false ∧
    countContained positive_keywords "오류" < countContained negative_keywords "오류" ∧
    81 ≤ CriticAgent.extract_quality_score "오류" 80 ∧
    CriticAgent.extracted_score "ok" 50 =
      50 + (if countContained negative_keywords "ok" <
              countContained positive_keywords "ok" then 10
            else if countContained positive_keywords "ok" <
              countContained negative_keywords "ok" then 5
            else 7) := by
  refine ⟨by decide, by decide, by decide, ?_, ?_⟩
  · exact spec_C9_amended.2 "오류" (by decide) (by decide) (by decide)
  · exact spec_C9_amended.1 "ok" 50 (by decide) (by decide)

lemma passResult_rolled_back (env : Env) (n : ℕ) (st : LoopState) :
    (LoopAgent.passResult env n st).rolled_back = false :=
  run_iteration_rolled_back env n { st with iteration := st.iteration + 1 }
    st.current_draft st.current_score

lemma passResult_critique (env : Env) (n : ℕ) (st : LoopState) :
    (LoopAgent.passResult env n st).critique_response =
      CriticAgent.process (env.critiques n) st.current_score :=
  run_iteration_critique env n { st with iteration := st.iteration + 1 }
    st.current_draft st.current_score

/-- C6 (counterexample): the regression guard can fire on iteration 1 —
the first critique scores 0.30, the refined score 0.40 is below the 0.70
baseline written by the draft stage *within the same iteration*, the
record is flagged `rolled_back`, and yet `current_draft` after the
iteration is the fresh draft `D`, not the pre-iteration empty string: the
state is NOT "unchanged by that iteration". -/
theorem spec_C6_counterexample :
    ((LoopAgent.run_pass defaultConfig envC10 0 {}).1.history.map
        fun e => e.result.rolled_back) = [true] ∧
    (LoopAgent.run_pass defaultConfig envC10 0 {}).1.current_draft = "D" ∧
    ({} : LoopState).current_draft = "" ∧
    ("D" : String) ≠ "" :=
  ⟨by decide, by decide, rfl, by decide⟩

/-- C6 (amended): on every iteration after the first (where the state the
guard compares against is the pre-iteration state), a new score strictly
below `current_score` leaves `current_draft`/`current_score` unchanged and
appends a record flagged `rolled_back = true` with the reason string
`Quality decreased`; otherwise the new content and score are adopted and
the appended record is unflagged.  On iteration 1 the same guard logic
applies, but relative to the 0.70 draft baseline set within the iteration
(see the counterexample). -/
theorem spec_C6_amended (cfg : Config) (env : Env) (n : ℕ) (st : LoopState)
    (h0 : st.iteration ≠ 0) :
    ((LoopAgent.passResult env n st).quality_score < st.current_score →
      (LoopAgent.run_pass cfg env n st).1.current_draft = st.current_draft ∧
      (LoopAgent.run_pass cfg env n st).1.current_score = st.current_score ∧
      ((LoopAgent.run_pass cfg env n st).1.history.map fun e => e.result.rolled_back) =
        (st.history.map fun e => e.result.rolled_back) ++ [true] ∧
      ((LoopAgent.run_pass cfg env n st).1.history.map fun e => e.result.rollback_reason) =
        (st.history.map fun e => e.result.rollback_reason) ++ ["Quality decreased"]) ∧
    (st.current_score ≤ (LoopAgent.passResult env n st).quality_score →
      (LoopAgent.run_pass cfg env n st).1.current_draft =
        (LoopAgent.passResult env n st).refined_content ∧
      (LoopAgent.run_pass cfg env n st).1.current_score =
        (LoopAgent.passResult env n st).quality_score ∧
      ((LoopAgent.run_pass cfg env n st).1.history.map fun e => e.result.rolled_back) =
        (st.history.map fun e => e.result.rolled_back) ++ [false]) := by
  have hstep := run_iteration_fst_flat env n st st.current_draft st.current_score
  rw [if_neg h0] at hstep
  have hgoal : (LoopAgent.run_pass cfg env n st).1 =
      (LoopAgent.should_exit cfg (env.elapsedAfter n)
        (LoopAgent.state_update
          (LoopAgent.run_iteration env n { st with iteration := st.iteration + 1 }
            st.current_draft st.current_score).1
          (LoopAgent.passResult env n st))
        (LoopAgent.passResult env n st).critique_response).1 := rfl
  rw [hstep] at hgoal
  obtain ⟨hd, hs, hh, _, _⟩ := should_exit_fields cfg (env.elapsedAfter n)
    (LoopAgent.state_update { st with iteration := st.iteration + 1 }
      (LoopAgent.passResult env n st))
    (LoopAgent.passResult env n st).critique_response
  constructor
  · intro hlt
    obtain ⟨u1, u2, u3, u4⟩ := state_update_rollback { st with iteration := st.iteration + 1 }
      (LoopAgent.passResult env n st) hlt
    refine ⟨?_, ?_, ?_, ?_⟩
    · rw [hgoal, hd, u1]
    · rw [hgoal, hs, u2]
    · rw [hgoal, hh, u3]
    · rw [hgoal, hh, u4]
  · intro hle
    obtain ⟨u1, u2, u3⟩ := state_update_adopt { st with iteration := st.iteration + 1 }
      (LoopAgent.passResult env n st) hle
    refine ⟨?_, ?_, ?_⟩
    · rw [hgoal, hd, u1]
    · rw [hgoal, hs, u2]
    · rw [hgoal, hh, u3, passResult_rolled_back]

theorem spec_C6_amended_witness :
    (LoopAgent.run_loop defaultConfig envC10 1 0 {}).iteration ≠ 0 ∧
    (LoopAgent.run_loop defaultConfig envC10 1 0 {}).current_score ≤
      (LoopAgent.passResult envC10 1 (LoopAgent.run_loop defaultConfig envC10 1 0 {})).quality_score ∧
    (LoopAgent.run_pass defaultConfig envC10 1
        (LoopAgent.run_loop defaultConfig envC10 1 0 {})).1.current_draft =
      (LoopAgent.passResult envC10 1
        (LoopAgent.run_loop defaultConfig envC10 1 0 {})).refined_content := by
  refine ⟨by decide, by decide, ?_⟩
  exact ((spec_C6_amended defaultConfig envC10 1
    (LoopAgent.run_loop defaultConfig envC10 1 0 {}) (by decide)).2 (by decide)).1

/-- C8: the per-iteration exit check of `_should_exit` evaluates the four
standing conditions in exactly the order quality-threshold-met,
sentinel-marker-found, iteration-limit-reached, timeout-exceeded, and the
first condition that holds sets `exit_reason` and returns true with no
later condition evaluated (first equation); when the check fires, the loop
stops immediately with that state (second equation), and the final result
reports exactly the loop-end `exit_reason`, so no later condition
overwrites it (third equation). -/
theorem spec_C8_exit_priority :
    (∀ (cfg : Config) (e : ℤ) (st : LoopState) (cr : AgentResponse),
      LoopAgent.should_exit cfg e st cr =
        if cfg.QUALITY_THRESHOLD ≤ cr.quality_score then
          ({ st with exit_reason := "Quality threshold met" }, true)
        else if containsStr cr.content "No major issues found" then
          ({ st with exit_reason := "No major issues found by critic" }, true)
        else if cfg.MAX_ITERATIONS ≤ st.iteration then
          ({ st with exit_reason := "Maximum iterations reached" }, true)
        else if cfg.TIMEOUT_SECONDS < e then
          ({ st with exit_reason := "Timeout exceeded" }, true)
        else (st, false)) ∧
    (∀ (cfg : Config) (env : Env) (fuel n : ℕ) (st st2 : LoopState),
      (LoopState.should_exit cfg (env.elapsedTop n) st).2 = false →
      LoopAgent.run_pass cfg env n st = (st2, true) →
      LoopAgent.run_loop cfg env (fuel + 1) n st = st2) ∧
    (∀ (cfg : Config) (env : Env),
      (LoopAgent.run cfg env).exit_reason = (LoopAgent.runEndState cfg env).exit_reason) := by
  refine ⟨?_, ?_, ?_⟩
  · intro cfg e st cr
    by_cases h1 : cfg.QUALITY_THRESHOLD ≤ cr.quality_score
    · simp [LoopAgent.should_exit, LoopAgent.exit_conditions, LoopAgent.should_exit_chain,
        LoopAgent.check_quality_threshold, h1]
    · by_cases h2 : containsStr cr.content "No major issues found" = true
      · simp [LoopAgent.should_exit, LoopAgent.exit_conditions, LoopAgent.should_exit_chain,
          LoopAgent.check_quality_threshold, LoopAgent.check_no_major_issues, h1, h2]
      · by_cases h3 : cfg.MAX_ITERATIONS ≤ st.iteration
        · simp [LoopAgent.should_exit, LoopAgent.exit_conditions, LoopAgent.should_exit_chain,
            LoopAgent.check_quality_threshold, LoopAgent.check_no_major_issues,
            LoopAgent.check_iteration_limit, h1, h2, h3]
        · by_cases h4 : cfg.TIMEOUT_SECONDS < e
          · simp [LoopAgent.should_exit, LoopAgent.exit_conditions,
              LoopAgent.should_exit_chain, LoopAgent.check_quality_threshold,
              LoopAgent.check_no_major_issues, LoopAgent.check_iteration_limit,
              LoopAgent.check_timeout, h1, h2, h3, h4]
          · simp [LoopAgent.should_exit, LoopAgent.exit_conditions,
              LoopAgent.should_exit_chain, LoopAgent.check_quality_threshold,
              LoopAgent.check_no_major_issues, LoopAgent.check_iteration_limit,
              LoopAgent.check_timeout, h1, h2, h3, h4]
  · intro cfg env fuel n st st2 htop hpass
    rw [run_loop_succ, htop, should_exit_top_false cfg (env.elapsedTop n) st htop, hpass]
    simp
  · intro cfg env
    unfold LoopAgent.run
    rw [(prepare_fields _).2.2.2.2.1, finalize_exit_reason]

theorem spec_C8_exit_priority_witness :
    (LoopState.should_exit defaultConfig (envC10.elapsedTop 1)
        (LoopAgent.run_loop defaultConfig envC10 1 0 {})).2 = false ∧
    (LoopAgent.run_pass defaultConfig envC10 1
        (LoopAgent.run_loop defaultConfig envC10 1 0 {})).2 = true ∧
    LoopAgent.run_loop defaultConfig envC10 1 1 (LoopAgent.run_loop defaultConfig envC10 1 0 {}) =
      (LoopAgent.run_pass defaultConfig envC10 1
        (LoopAgent.run_loop defaultConfig envC10 1 0 {})).1 := by
  refine ⟨by decide, by decide, ?_⟩
  exact spec_C8_exit_priority.2.1 defaultConfig envC10 0 1
    (LoopAgent.run_loop defaultConfig envC10 1 0 {})
    (LoopAgent.run_pass defaultConfig envC10 1 (LoopAgent.run_loop defaultConfig envC10 1 0 {})).1
    (by decide) (by decide)

/-- C10: in the first pass of every run the Critic receives
`previous_score = 0` — the fresh state's `current_score`, captured into
the pipeline input before the draft stage writes the 0.70 baseline — so
the monotonicity floor of the first critique is 0.01, not 0.71; a
first-pass critique can therefore score below 0.70 (here `30점` scores
0.30) and make the rollback branch reachable on iteration 1, as the
concrete run shows. -/
theorem spec_C10_first_pass_previous_zero :
    (∀ (cfg : Config) (env : Env) (n : ℕ),
      ((LoopAgent.run_pass cfg env n ({} : LoopState)).1.history.map
          fun e => e.result.critique_response) =
        [CriticAgent.process (env.critiques n) 0]) ∧
    (∀ critique : String, 1 ≤ CriticAgent.extract_quality_score critique 0) ∧
    (((LoopAgent.run_loop defaultConfig envC10 1 0 {}).history.map
        fun e => e.result.critique_response.quality_score) = [30] ∧
     ((LoopAgent.run_loop defaultConfig envC10 1 0 {}).history.map
        fun e => e.result.rolled_back) = [true] ∧
     (30 : ℤ) < 70) := by
  refine ⟨?_, ?_, by decide, by decide, by decide⟩
  · intro cfg env n
    have hstep := run_iteration_fst_flat env n ({} : LoopState)
      ({} : LoopState).current_draft ({} : LoopState).current_score
    rw [if_pos rfl] at hstep
    have hgoal : (LoopAgent.run_pass cfg env n ({} : LoopState)).1 =
        (LoopAgent.should_exit cfg (env.elapsedAfter n)
          (LoopAgent.state_update
            (LoopAgent.run_iteration env n
              { ({} : LoopState) with iteration := ({} : LoopState).iteration + 1 }
              ({} : LoopState).current_draft ({} : LoopState).current_score).1
            (LoopAgent.passResult env n ({} : LoopState)))
          (LoopAgent.passResult env n ({} : LoopState)).critique_response).1 := rfl
    rw [hstep] at hgoal
    obtain ⟨_, _, hh, _, _⟩ := should_exit_fields cfg (env.elapsedAfter n)
      (LoopAgent.state_update
        { ({} : LoopState) with
            iteration := ({} : LoopState).iteration + 1
            current_draft := env.draftText
            current_score := 70
            best_score := 70
            best_content := env.draftText }
        (LoopAgent.passResult env n ({} : LoopState)))
      (LoopAgent.passResult env n ({} : LoopState)).critique_response
    rw [hgoal, hh, state_update_critiques, passResult_critique]
    rfl
  · intro critique
    unfold CriticAgent.extract_quality_score
    exact le_min (le_trans (by omega) (le_max_right _ _)) (by omega)
